import Mathlib

/-!
# Verification of the MC-Skin-Renderer front-end script (src/script.js)

A shallow embedding of the skin-resolution and skin-loading logic of
`src/script.js`.  The script is single-threaded, event-driven browser glue;
its observable behaviour on one user action is a pure function of

* whether the viewer has finished initialising (`viewer` truthy),
* the user input (search string / dropped file),
* the responses of the two proxied HTTP endpoints,
* the result of the external renderer's `loadSkin` promise,
* the result of `JSON.parse(atob ...)` on the textures blob, and
* the current contents of `localStorage`.

The HTTP responses, the renderer and the base64/JSON decoder are external
collaborators; they are passed in as an explicit environment (`Env`).
JavaScript values that flow out of `response.json()` are modelled by
`JValue`, with member access throwing (`Except`) on `null`/`undefined`
exactly as in JavaScript; the `try { ... } catch` of the script is
modelled by the explicit error propagation below.

Each function of the script is mirrored by one Lean definition that
returns the status message written by `setStatus`, the ordered trace of
externally visible effects (HTTP requests, file reads, `loadSkin` calls)
and the final `localStorage` contents.
-/

namespace MCSkin

/-! ## JavaScript value model -/

/-- A JavaScript value as produced by `response.json()` / `JSON.parse`,
plus `undefined` (the result of reading an absent property). -/
inductive JValue where
  | undefVal
  | jnull
  | jbool (b : Bool)
  | jnum (n : Int)
  | jstr (s : String)
  | jarr (elems : List JValue)
  | jobj (fields : List (String × JValue))

/-- JavaScript truthiness (`if (x)`), restricted to the values `JValue`
models.  `undefined`, `null`, `false`, `0` and `""` are falsy. -/
def truthy : JValue → Bool
  | .undefVal => false
  | .jnull => false
  | .jbool b => b
  | .jnum n => n != 0
  | .jstr s => !s.isEmpty
  | .jarr _ => true
  | .jobj _ => true

/-- Look a key up in an object's field list (first binding wins). -/
def objLookup (fields : List (String × JValue)) (k : String) : JValue :=
  match fields.find? (fun p => p.1 == k) with
  | some p => p.2
  | none => .undefVal

/-- Property read on a value that is not `null`/`undefined`: objects yield
the field (or `undefined` when absent); the primitives and arrays have none
of the properties this script reads, so they yield `undefined`. -/
def getFieldTotal : JValue → String → JValue
  | .jobj fields, k => objLookup fields k
  | _, _ => .undefVal

/-- Plain JavaScript member access `v.k`: throws a `TypeError` when `v`
is `null` or `undefined`, otherwise reads the property. -/
def getFieldE : JValue → String → Except Unit JValue
  | .undefVal, _ => .error ()
  | .jnull, _ => .error ()
  | v, k => .ok (getFieldTotal v k)

/-- Optional-chained member access `v?.k`: yields `undefined` instead of
throwing when `v` is `null`/`undefined`. -/
def optChain : JValue → String → JValue
  | .undefVal, _ => .undefVal
  | .jnull, _ => .undefVal
  | v, k => getFieldTotal v k

mutual

/-- JavaScript string coercion (as used by `localStorage.setItem` and the
template literals of the script). -/
def jToString : JValue → String
  | .undefVal => "undefined"
  | .jnull => "null"
  | .jbool b => if b then "true" else "false"
  | .jnum n => toString n
  | .jstr s => s
  | .jarr l => String.intercalate "," (jToStringElems l)
  | .jobj _ => "[object Object]"

/-- Array-element coercion for `Array.prototype.toString`: `null` and
`undefined` elements become the empty string. -/
def jToStringElems : List JValue → List String
  | [] => []
  | .undefVal :: rest => "" :: jToStringElems rest
  | .jnull :: rest => "" :: jToStringElems rest
  | v :: rest => jToString v :: jToStringElems rest

end

/-! ## Character-level string helpers

JavaScript's `trim`, the dash-split used to model the dashed-UUID regex,
and `endsWith` are defined over `List Char` so that every definition in
this file evaluates by kernel reduction. -/

/-- A JavaScript whitespace character (the set removed by
`String.prototype.trim`): tab, LF, VT, FF, CR, space, NBSP, BOM and the
Unicode space/line separators. -/
def isJsWhitespace (c : Char) : Bool :=
  c == ' ' || c == '\t' || c == '\n' || c == '\r' ||
  c == '\x0b' || c == '\x0c' || c == (Char.ofNat 0xa0) ||
  c == (Char.ofNat 0xfeff) || c == (Char.ofNat 0x1680) ||
  ((Char.ofNat 0x2000) ≤ c && c ≤ (Char.ofNat 0x200a)) ||
  c == (Char.ofNat 0x2028) || c == (Char.ofNat 0x2029) ||
  c == (Char.ofNat 0x202f) || c == (Char.ofNat 0x205f) ||
  c == (Char.ofNat 0x3000)

/-- `usernameOrUUID.trim()` (line 22): strip leading and trailing
JavaScript whitespace. -/
def jsTrim (s : String) : String :=
  String.mk (((s.data.dropWhile isJsWhitespace).reverse.dropWhile
    isJsWhitespace).reverse)

/-- Split a character list at every dash; the dash is not part of any
returned group. -/
def splitOnDash : List Char → List (List Char)
  | [] => [[]]
  | '-' :: rest => [] :: splitOnDash rest
  | c :: rest =>
    match splitOnDash rest with
    | [] => [[c]]
    | part :: parts => (c :: part) :: parts

/-- `s.endsWith(pat)`. -/
def strEndsWith (s pat : String) : Bool :=
  pat.data.reverse.isPrefixOf s.data.reverse

/-! ## Input classification (the two regexes of line 36) -/

/-- A hexadecimal digit, case-insensitively (`[0-9a-f]` with the `i` flag). -/
def isHexCI (c : Char) : Bool :=
  if '0' ≤ c ∧ c ≤ '9' then true
  else if 'a' ≤ c ∧ c ≤ 'f' then true
  else if 'A' ≤ c ∧ c ≤ 'F' then true
  else false

/-- `input.match(/^[0-9a-f]\x7b32\x7d$/i)`: exactly 32 hex characters. -/
def hex32 (s : String) : Bool :=
  s.length == 32 && s.data.all isHexCI

/-- `input.match(/^[0-9a-f]\x7b8\x7d-...$/i)`: the dashed 8-4-4-4-12 UUID
shape.  Splitting on every dash is equivalent to the anchored regex because
a dash is not a hex character. -/
def dashedUUID (s : String) : Bool :=
  match splitOnDash s.data with
  | [a, b, c, d, e] =>
      a.length == 8 && b.length == 4 && c.length == 4 && d.length == 4 &&
      e.length == 12 && (a ++ b ++ c ++ d ++ e).all isHexCI
  | _ => false

/-- The script's UUID test on line 36: the input is treated as a UUID
(name lookup skipped) iff either regex matches. -/
def isUuidShaped (s : String) : Bool :=
  hex32 s || dashedUUID s

/-- `uuid.replace` with the global dash regex, line 56: drop every dash. -/
def stripDashes (s : String) : String :=
  String.mk (s.data.filter (fun c => c ≠ '-'))

/-! ## External environment -/

/-- An HTTP response as seen through `fetch`: `ok`, `status`, and the body;
`body = none` models `response.json()` rejecting (invalid JSON). -/
structure HttpResp where
  ok : Bool
  status : Nat
  body : Option JValue

/-- The external collaborators of one user action: the proxied
name-lookup response, the proxied session-profile response (keyed by the
de-dashed UUID that is interpolated into the request URL), the composition
`JSON.parse ∘ atob` on the textures blob (`none` models a throw), and
whether the renderer's `loadSkin` promise resolves for a given source. -/
structure Env where
  nameLookup : HttpResp
  sessionLookup : String → HttpResp
  parseTextures : String → Option JValue
  loadSkinOk : JValue → Bool

/-! ## localStorage -/

/-- `localStorage`: a string-keyed, string-valued store. -/
def Storage : Type := String → Option String

/-- `localStorage.getItem`. -/
def getItem (st : Storage) (k : String) : Option String := st k

/-- `localStorage.setItem`. -/
def setItem (st : Storage) (k v : String) : Storage :=
  fun k' => if k' == k then some v else st k'

/-- `localStorage.removeItem`. -/
def removeItem (st : Storage) (k : String) : Storage :=
  fun k' => if k' == k then none else st k'

/-- An empty `localStorage`. -/
def emptyStorage : Storage := fun _ => none

/-! ## Observable effects -/

/-- Externally visible effects of one call, in program order. -/
inductive Ev where
  | nameReq
  | sessionReq (uuid : String)
  | loadSkin (src : JValue)
  | fileRead

/-- Does an event record the proxied name-lookup request? -/
def isNameReqEv : Ev → Bool
  | .nameReq => true
  | _ => false

/-- Does an event record the proxied session-profile request? -/
def isSessionReqEv : Ev → Bool
  | .sessionReq _ => true
  | _ => false

/-- Does an event record a call into the renderer's `loadSkin`? -/
def isLoadSkinEv : Ev → Bool
  | .loadSkin _ => true
  | _ => false

/-- Does an event record starting a `FileReader` read? -/
def isFileReadEv : Ev → Bool
  | .fileRead => true
  | _ => false

/-! ## Status messages (the `setStatus` strings of the script) -/

/-- Line 18. -/
def startingUpMsg : String :=
  "Viewer is still starting up. Please try again in a second."

/-- Line 24. -/
def emptyInputMsg : String := "Please enter a username or UUID."

/-- Line 43. -/
def notFoundMsg (input : String) : String :=
  "Player \"" ++ input ++ "\" not found."

/-- Line 45. -/
def profileFailMsg : String :=
  "Failed to fetch player profile. Try again later."

/-- Line 63. -/
def skinDataFailMsg : String := "Failed to fetch skin data."

/-- Line 73. -/
def noSkinDataMsg : String := "No skin data found for this player."

/-- Line 81. -/
def noSkinFoundMsg : String := "No skin found for this player."

/-- Line 92. -/
def loadedMsg (playerName : String) : String :=
  "Loaded skin for <strong>" ++ playerName ++
    "</strong>! Scroll to zoom and drag to orbit."

/-- Line 96 (the `catch` of `fetchSkinFromMojang`). -/
def fetchCatchMsg : String :=
  "An error occurred while fetching the skin. Please try again."

/-- Lines 146 and 151. -/
def readyMsg : String :=
  "Ready! Upload a skin file or fetch one by username."

/-- Line 141. -/
def loadedSavedNamedMsg (playerName : String) : String :=
  "Loaded saved skin for <strong>" ++ playerName ++
    "</strong>! Scroll to zoom and drag to orbit."

/-- Line 143. -/
def loadedSavedMsg : String :=
  "Loaded saved skin! Scroll to zoom and drag to orbit."

/-- Line 164. -/
def pngErrMsg : String := "Please select a PNG file (e.g. skin.png)."

/-- Line 169. -/
def sizeErrMsg : String := "That file is quite large. Try a file under 5 MB."

/-- Line 173. -/
def loadingSkinMsg : String := "Loading skin…"

/-- Line 186. -/
def skinLoadedMsg : String :=
  "Skin loaded! Scroll to zoom and drag the preview to orbit."

/-- Line 191 (the `catch` around the file-reader's `loadSkin`). -/
def fileCatchMsg : String :=
  "Something went wrong reading that skin file."

/-- Line 196 (the `FileReader` `error` event). -/
def fileReadErrMsg : String := "Could not read that file. Please try again."

/-! ## The Resolver: `fetchSkinFromMojang` (lines 16-100) -/

/-- Result of one `fetchSkinFromMojang` call: the last `setStatus`
message and error flag, the effect trace, the final storage, the resolved
skin reference `(skinUrl, playerName)` when the extraction of line 78
succeeded, and whether the `catch` block of line 94 ran. -/
structure FetchOut where
  statusMsg : String
  statusErr : Bool
  events : List Ev
  storage : Storage
  resolved : Option (JValue × JValue)
  threw : Bool

/-- The `catch` block of line 94: generic error message, nothing written. -/
def caughtOut (evs : List Ev) (st : Storage) : FetchOut :=
  { statusMsg := fetchCatchMsg, statusErr := true, events := evs,
    storage := st, resolved := none, threw := true }

/-- Lines 55-92 of `fetchSkinFromMojang`: everything after the optional
name lookup, starting from the JavaScript variables `uuid` and
`playerName` (the latter is dead here — line 68 overwrites it before any
use).  `uuid.replace` throws unless `uuid` is a string;
`sessionData.properties.find` throws unless `properties` is an array. -/
def phase2 (uuid0 _playerName0 : JValue) (env : Env) (st : Storage) : FetchOut :=
  match uuid0 with
  | .jstr u =>
    let uuid := stripDashes u
    let r := env.sessionLookup uuid
    let evs := [Ev.sessionReq uuid]
    if !r.ok then
      { statusMsg := skinDataFailMsg, statusErr := true, events := evs,
        storage := st, resolved := none, threw := false }
    else
      match r.body with
      | none => caughtOut evs st
      | some sessionData =>
        match getFieldE sessionData "name" with
        | .error _ => caughtOut evs st
        | .ok playerName =>
          match getFieldE sessionData "properties" with
          | .error _ => caughtOut evs st
          | .ok (.jarr props) =>
            match findTextures props with
            | .error _ => caughtOut evs st
            | .ok none =>
                { statusMsg := noSkinDataMsg, statusErr := true,
                  events := evs, storage := st, resolved := none,
                  threw := false }
            | .ok (some texturesProperty) =>
              match getFieldE texturesProperty "value" with
              | .error _ => caughtOut evs st
              | .ok v =>
                match env.parseTextures (jToString v) with
                | none => caughtOut evs st
                | some texturesJson =>
                  match getFieldE texturesJson "textures" with
                  | .error _ => caughtOut evs st
                  | .ok t =>
                    match getFieldE t "SKIN" with
                    | .error _ => caughtOut evs st
                    | .ok skinProp =>
                      let skinUrl := optChain skinProp "url"
                      if !truthy skinUrl then
                        { statusMsg := noSkinFoundMsg, statusErr := true,
                          events := evs, storage := st, resolved := none,
                          threw := false }
                      else
                        if env.loadSkinOk skinUrl then
                          { statusMsg := loadedMsg (jToString playerName),
                            statusErr := false,
                            events := [Ev.sessionReq uuid, Ev.loadSkin skinUrl],
                            storage :=
                              setItem
                                (setItem st "currentSkin" (jToString skinUrl))
                                "currentPlayerName" (jToString playerName),
                            resolved := some (skinUrl, playerName),
                            threw := false }
                        else
                          { statusMsg := fetchCatchMsg, statusErr := true,
                            events := [Ev.sessionReq uuid, Ev.loadSkin skinUrl],
                            storage := st,
                            resolved := some (skinUrl, playerName),
                            threw := true }
          | .ok _ => caughtOut evs st
  | _ => caughtOut [] st
where
  /-- `sessionData.properties.find(prop => prop.name === "textures")`
  (line 71): first element whose `name` property is the string
  `"textures"`; reading `name` off a `null`/`undefined` element throws. -/
  findTextures : List JValue → Except Unit (Option JValue)
    | [] => .ok none
    | e :: rest =>
      match getFieldE e "name" with
      | .error _ => .error ()
      | .ok (.jstr s) => if s == "textures" then .ok (some e) else findTextures rest
      | .ok _ => findTextures rest

/-- Lines 31-99: the `try` body after the guards (classification, optional
name lookup, then `phase2`). -/
def runFetch (input : String) (env : Env) (st : Storage) : FetchOut :=
  if !isUuidShaped input then
    let r := env.nameLookup
    if !r.ok then
      if r.status == 404 then
        { statusMsg := notFoundMsg input, statusErr := true,
          events := [Ev.nameReq], storage := st, resolved := none,
          threw := false }
      else
        { statusMsg := profileFailMsg, statusErr := true,
          events := [Ev.nameReq], storage := st, resolved := none,
          threw := false }
    else
      match r.body with
      | none => caughtOut [Ev.nameReq] st
      | some profileData =>
        match getFieldE profileData "id", getFieldE profileData "name" with
        | .ok uuid, .ok playerName =>
          let out := phase2 uuid playerName env st
          { out with events := Ev.nameReq :: out.events }
        | _, _ => caughtOut [Ev.nameReq] st
  else
    phase2 (.jstr input) (.jstr input) env st

/-- `fetchSkinFromMojang` (lines 16-100): viewer guard, trim, empty-input
guard, then the `try`/`catch` body. -/
def fetchSkinFromMojang (viewerInit : Bool) (usernameOrUUID : String)
    (env : Env) (st : Storage) : FetchOut :=
  if !viewerInit then
    { statusMsg := startingUpMsg, statusErr := true, events := [],
      storage := st, resolved := none, threw := false }
  else
    let input := jsTrim usernameOrUUID
    if input.isEmpty then
      { statusMsg := emptyInputMsg, statusErr := true, events := [],
        storage := st, resolved := none, threw := false }
    else
      runFetch input env st

/-! ## The Loader: `readSkinFile` (lines 155-200) -/

/-- The fields of a dropped/selected `File` the script reads. -/
structure SkinFile where
  type : String
  name : String
  size : Nat

/-- The PNG pre-validation of line 162: MIME type or filename extension. -/
def isPNGFile (f : SkinFile) : Bool :=
  f.type == "image/png" || strEndsWith f.name ".png"

/-- Result of one `readSkinFile` call; `statusMsg = none` when the call
returned without touching the status line (the `if (!file) return` of
line 160). -/
structure FileOut where
  statusMsg : Option (String × Bool)
  events : List Ev
  storage : Storage

/-- `readSkinFile` (lines 155-200).  `readResult` is the outcome of the
`FileReader`: `some dataUrl` delivers the `load` event with
`event.target.result`, `none` delivers the `error` event. -/
def readSkinFile (viewerInit : Bool) (file : Option SkinFile) (env : Env)
    (readResult : Option String) (st : Storage) : FileOut :=
  if !viewerInit then
    { statusMsg := some (startingUpMsg, true), events := [], storage := st }
  else
    match file with
    | none => { statusMsg := none, events := [], storage := st }
    | some f =>
      if !isPNGFile f then
        { statusMsg := some (pngErrMsg, true), events := [], storage := st }
      else if f.size > 5 * 1024 * 1024 then
        { statusMsg := some (sizeErrMsg, true), events := [], storage := st }
      else
        match readResult with
        | none =>
            { statusMsg := some (fileReadErrMsg, true),
              events := [Ev.fileRead], storage := st }
        | some skinData =>
          if env.loadSkinOk (.jstr skinData) then
            { statusMsg := some (skinLoadedMsg, false),
              events := [Ev.fileRead, Ev.loadSkin (.jstr skinData)],
              storage :=
                removeItem (setItem st "currentSkin" skinData)
                  "currentPlayerName" }
          else
            { statusMsg := some (fileCatchMsg, true),
              events := [Ev.fileRead, Ev.loadSkin (.jstr skinData)],
              storage := st }

/-! ## Startup: `initializeViewer` (lines 102-153) and the toggle -/

/-- Line 120: `localStorage.getItem('animationEnabled') !== 'false'`. -/
def animationEnabledPref (st : Storage) : Bool :=
  getItem st "animationEnabled" != some "false"

/-- Result of `initializeViewer`: whether `viewer.animation` was set to a
`WalkingAnimation`, the checkbox state (`none` when the toggle element is
absent), the status line, the final storage and the effect trace. -/
structure InitOut where
  animationSet : Bool
  toggleChecked : Option Bool
  statusMsg : String
  statusErr : Bool
  storage : Storage
  events : List Ev

/-- `initializeViewer` (lines 102-153), after the viewer construction and
orbit-control configuration (pure external configuration, no observable
branching): animation preference, toggle state, and the saved-skin
restore with its `try`/`catch`.  Line 136's `if (savedSkin)` is a
JavaScript truthiness test: `getItem` yielding `null` or the empty string
both take the else branch (ready message, no load attempt, storage
untouched). -/
def initializeViewer (togglePresent : Bool) (env : Env) (st : Storage) :
    InitOut :=
  let animationEnabled := animationEnabledPref st
  let toggleChecked := if togglePresent then some animationEnabled else none
  match getItem st "currentSkin" with
  | some savedSkin =>
    if !savedSkin.isEmpty then
      if env.loadSkinOk (.jstr savedSkin) then
        match getItem st "currentPlayerName" with
        | some savedPlayerName =>
          if !savedPlayerName.isEmpty then
            { animationSet := animationEnabled, toggleChecked := toggleChecked,
              statusMsg := loadedSavedNamedMsg savedPlayerName,
              statusErr := false, storage := st,
              events := [Ev.loadSkin (.jstr savedSkin)] }
          else
            { animationSet := animationEnabled, toggleChecked := toggleChecked,
              statusMsg := loadedSavedMsg, statusErr := false, storage := st,
              events := [Ev.loadSkin (.jstr savedSkin)] }
        | none =>
            { animationSet := animationEnabled, toggleChecked := toggleChecked,
              statusMsg := loadedSavedMsg, statusErr := false, storage := st,
              events := [Ev.loadSkin (.jstr savedSkin)] }
      else
        { animationSet := animationEnabled, toggleChecked := toggleChecked,
          statusMsg := readyMsg, statusErr := false,
          storage :=
            removeItem (removeItem st "currentSkin") "currentPlayerName",
          events := [Ev.loadSkin (.jstr savedSkin)] }
    else
      { animationSet := animationEnabled, toggleChecked := toggleChecked,
        statusMsg := readyMsg, statusErr := false, storage := st,
        events := [] }
  | none =>
      { animationSet := animationEnabled, toggleChecked := toggleChecked,
        statusMsg := readyMsg, statusErr := false, storage := st,
        events := [] }

/-- The `change` handler of the animation toggle (lines 261-277): returns
`none` when the viewer is uninitialised (early return), otherwise whether
`viewer.animation` ends up set and the storage after persisting the
preference (JavaScript coerces the boolean to `"true"`/`"false"`). -/
def animationToggleChange (viewerInit : Bool) (isEnabled : Bool)
    (st : Storage) : Option (Bool × Storage) :=
  if !viewerInit then none
  else
    some (isEnabled,
      setItem st "animationEnabled" (if isEnabled then "true" else "false"))

/-! ## Concrete sample data

Executable instances of the environment used to evaluate the definitions
above at concrete inputs (witnesses and counterexamples). -/

/-- A successful name-lookup response (the spec's `"Notch"` scenario). -/
def sampleNameResp : HttpResp :=
  { ok := true, status := 200,
    body := some (.jobj
      [("id", .jstr "069a79f4-44e9-4726-a5be-fca90e38aaf5"),
       ("name", .jstr "Notch")]) }

/-- A profile property named `textures` with an opaque base64 value. -/
def sampleTexturesProp : JValue :=
  .jobj [("name", .jstr "textures"), ("value", .jstr "blob")]

/-- A session-profile body with one `textures` property. -/
def sampleSessionBody : JValue :=
  .jobj [("name", .jstr "Notch"), ("properties", .jarr [sampleTexturesProp])]

/-- A successful session-profile response. -/
def sampleSessionResp : HttpResp :=
  { ok := true, status := 200, body := some sampleSessionBody }

/-- A decoded texture descriptor with a skin URL. -/
def sampleTexturesJson : JValue :=
  .jobj [("textures", .jobj
    [("SKIN", .jobj
      [("url", .jstr "https://textures.minecraft.net/texture/xyz")])])]

/-- The happy-path environment: both lookups succeed, the texture blob
decodes to `sampleTexturesJson`, and the renderer accepts every source. -/
def sampleEnv : Env :=
  { nameLookup := sampleNameResp,
    sessionLookup := fun _ => sampleSessionResp,
    parseTextures := fun _ => some sampleTexturesJson,
    loadSkinOk := fun _ => true }

/-- Like `sampleEnv`, but the renderer's `loadSkin` rejects everything. -/
def rejectEnv : Env :=
  { sampleEnv with loadSkinOk := fun _ => false }

/-- Like `sampleEnv`, but the name lookup returns HTTP 404. -/
def notFound404Env : Env :=
  { sampleEnv with nameLookup := { ok := false, status := 404, body := none } }

/-- Like `sampleEnv`, but the texture blob decodes to the empty JSON
object, which has no `textures` member at all. -/
def emptyTexturesEnv : Env :=
  { sampleEnv with parseTextures := fun _ => some (.jobj []) }

/-- Like `sampleEnv`, but the decoded descriptor has a `textures` object
with no `SKIN` entry (hence no skin URL). -/
def noSkinUrlEnv : Env :=
  { sampleEnv with
      parseTextures := fun _ => some (.jobj [("textures", .jobj [])]) }

/-- A storage holding a previously saved skin and player name. -/
def savedStorage : Storage :=
  setItem (setItem emptyStorage "currentSkin" "https://tex/old")
    "currentPlayerName" "Old"

/-- A PNG-typed file one byte over the 5 MiB ceiling. -/
def bigPngFile : SkinFile :=
  { type := "image/png", name := "big.png", size := 5 * 1024 * 1024 + 1 }

/-- A small PNG-typed file. -/
def smallPngFile : SkinFile :=
  { type := "image/png", name := "ok.png", size := 100 }

/-- An oversized file that is not a PNG by type or extension. -/
def bigTxtFile : SkinFile :=
  { type := "text/plain", name := "big.txt", size := 5 * 1024 * 1024 + 1 }

/-- A file whose name ends in `.png` but whose MIME type is not PNG. -/
def pngNameFile : SkinFile :=
  { type := "application/octet-stream", name := "skin.png", size := 100 }

/-- A file with PNG MIME type but no `.png` extension. -/
def noExtPngFile : SkinFile :=
  { type := "image/png", name := "skin", size := 100 }

end MCSkin

namespace MCSkin

/-! ## Helper lemmas about the Resolver's effect trace -/

/-- After a session request, `phase2` issues at most one further effect:
the optional `loadSkin` call. -/
theorem phase2_jstr_events (u : String) (pn : JValue) (env : Env) (st : Storage) :
    (phase2 (.jstr u) pn env st).events = [Ev.sessionReq (stripDashes u)] ∨
    ∃ x, (phase2 (.jstr u) pn env st).events =
      [Ev.sessionReq (stripDashes u), Ev.loadSkin x] := by
  unfold phase2
  simp only [caughtOut]
  repeat' first
    | (left; rfl)
    | (right; exact ⟨_, rfl⟩)
    | split

/-- `phase2` never issues a name-lookup request. -/
theorem phase2_countP_nameReq (uuid0 pn : JValue) (env : Env) (st : Storage) :
    (phase2 uuid0 pn env st).events.countP isNameReqEv = 0 := by
  cases uuid0 <;> try rfl
  case jstr u =>
    rcases phase2_jstr_events u pn env st with h | ⟨x, h⟩ <;>
      simp [h, List.countP_cons, isNameReqEv]

/-- `phase2` on a string UUID issues exactly one session request. -/
theorem phase2_jstr_countP_sessionReq (u : String) (pn : JValue) (env : Env)
    (st : Storage) :
    (phase2 (.jstr u) pn env st).events.countP isSessionReqEv = 1 := by
  rcases phase2_jstr_events u pn env st with h | ⟨x, h⟩ <;>
    simp [h, List.countP_cons, isSessionReqEv, isLoadSkinEv]

/-- The first effect of `phase2` on a string UUID is the session request. -/
theorem phase2_jstr_head (u : String) (pn : JValue) (env : Env) (st : Storage) :
    (phase2 (.jstr u) pn env st).events.head? =
      some (Ev.sessionReq (stripDashes u)) := by
  rcases phase2_jstr_events u pn env st with h | ⟨x, h⟩ <;> simp [h]

/-! ## C1: input classification -/

/-- Claim C1: with the viewer initialised and a non-empty trimmed input,
an input matching the 32-hex or dashed-UUID pattern produces no
name-lookup request and goes straight to the session-profile request
(exactly one, and it is the first effect); any other input produces
exactly one name-lookup request, which is the first effect of the call
(hence precedes any session-profile request). -/
theorem fetch_lookup_classification (s : String) (env : Env) (st : Storage)
    (hne : (jsTrim s).isEmpty = false) :
    (isUuidShaped (jsTrim s) = true →
      (fetchSkinFromMojang true s env st).events.countP isNameReqEv = 0 ∧
      (fetchSkinFromMojang true s env st).events.countP isSessionReqEv = 1 ∧
      (fetchSkinFromMojang true s env st).events.head? =
        some (Ev.sessionReq (stripDashes (jsTrim s)))) ∧
    (isUuidShaped (jsTrim s) = false →
      (fetchSkinFromMojang true s env st).events.countP isNameReqEv = 1 ∧
      (fetchSkinFromMojang true s env st).events.head? = some Ev.nameReq) := by
  simp only [fetchSkinFromMojang, Bool.not_true, Bool.false_eq_true, if_false, hne]
  constructor
  · intro h
    simp only [runFetch, h, Bool.not_true, Bool.false_eq_true, if_false]
    exact ⟨phase2_countP_nameReq _ _ env st,
      phase2_jstr_countP_sessionReq _ _ env st, phase2_jstr_head _ _ env st⟩
  · intro h
    simp only [runFetch, h, Bool.not_false, if_true]
    split
    · split <;> simp [List.countP_cons, isNameReqEv]
    · split
      · simp [caughtOut, List.countP_cons, isNameReqEv]
      · split
        · simp [List.countP_cons, isNameReqEv, phase2_countP_nameReq]
        · simp [caughtOut, List.countP_cons, isNameReqEv]

/-- Witness for C1: a username issues one name lookup first; a
UUID-shaped input issues none and starts with the session request. -/
theorem fetch_lookup_classification_witness :
    (fetchSkinFromMojang true "Notch" sampleEnv emptyStorage).events.countP
        isNameReqEv = 1 ∧
    (fetchSkinFromMojang true "Notch" sampleEnv emptyStorage).events.head? =
        some Ev.nameReq ∧
    (fetchSkinFromMojang true "069a79f4-44e9-4726-a5be-fca90e38aaf5" sampleEnv
        emptyStorage).events.countP isNameReqEv = 0 ∧
    (fetchSkinFromMojang true "069a79f4-44e9-4726-a5be-fca90e38aaf5" sampleEnv
        emptyStorage).events.countP isSessionReqEv = 1 := by
  refine ⟨?_, ?_, ?_, ?_⟩
  · exact ((fetch_lookup_classification "Notch" sampleEnv emptyStorage
      (by decide)).2 (by decide)).1
  · exact ((fetch_lookup_classification "Notch" sampleEnv emptyStorage
      (by decide)).2 (by decide)).2
  · exact ((fetch_lookup_classification "069a79f4-44e9-4726-a5be-fca90e38aaf5"
      sampleEnv emptyStorage (by decide)).1 (by decide)).1
  · exact ((fetch_lookup_classification "069a79f4-44e9-4726-a5be-fca90e38aaf5"
      sampleEnv emptyStorage (by decide)).1 (by decide)).2.1

end MCSkin

namespace MCSkin

/-! ## C2: missing skin URL in the decoded texture descriptor -/

/-- Counterexample to C2 as stated: the `textures` property decodes to the
empty JSON object — which certainly lacks a skin texture URL — yet the
status message is the generic catch-all error (`fetchCatchMsg`), not the
"no skin found" message: `texturesJson.textures.SKIN` on line 78 reads
`SKIN` off `undefined` and throws, landing in the `catch` of line 94.
The Loader is still never invoked. -/
theorem fetch_missing_textures_counterexample :
    (fetchSkinFromMojang true "Notch" emptyTexturesEnv emptyStorage).statusMsg ≠
      noSkinFoundMsg ∧
    (fetchSkinFromMojang true "Notch" emptyTexturesEnv emptyStorage).statusMsg =
      fetchCatchMsg ∧
    (fetchSkinFromMojang true "Notch" emptyTexturesEnv
      emptyStorage).events.countP isLoadSkinEv = 0 ∧
    (fetchSkinFromMojang true "Notch" emptyTexturesEnv emptyStorage).threw =
      true := by
  exact ⟨by decide, rfl, rfl, rfl⟩

/-- Claim C2 (amended): for a session run that reaches the texture
decoding step (session response ok, a `textures` property found, its value
decoded), if the chain `textures.SKIN?.url` evaluates without a throw to a
falsy value, the Resolver sets the "no skin found" message, never calls
`loadSkin`, and no exception is raised; if instead the decoded JSON's
`textures` member is absent or `null` (so the plain `.SKIN` access
throws), the generic catch message is set — again without calling
`loadSkin` and without the exception escaping the handler. -/
theorem fetch_no_skin_url (u : String) (pn0 : JValue) (env : Env) (st : Storage)
    (sd pn tp v tj : JValue) (props : List JValue)
    (hok : (env.sessionLookup (stripDashes u)).ok = true)
    (hbody : (env.sessionLookup (stripDashes u)).body = some sd)
    (hname : getFieldE sd "name" = .ok pn)
    (hprops : getFieldE sd "properties" = .ok (.jarr props))
    (hfind : phase2.findTextures props = .ok (some tp))
    (hval : getFieldE tp "value" = .ok v)
    (hparse : env.parseTextures (jToString v) = some tj) :
    (∀ t sp, getFieldE tj "textures" = .ok t → getFieldE t "SKIN" = .ok sp →
      truthy (optChain sp "url") = false →
      (phase2 (.jstr u) pn0 env st).statusMsg = noSkinFoundMsg ∧
      (phase2 (.jstr u) pn0 env st).events.countP isLoadSkinEv = 0 ∧
      (phase2 (.jstr u) pn0 env st).threw = false ∧
      (phase2 (.jstr u) pn0 env st).storage = st) ∧
    ((getFieldE tj "textures" = .error () ∨
      (∃ t, getFieldE tj "textures" = .ok t ∧ getFieldE t "SKIN" = .error ())) →
      (phase2 (.jstr u) pn0 env st).statusMsg = fetchCatchMsg ∧
      (phase2 (.jstr u) pn0 env st).events.countP isLoadSkinEv = 0 ∧
      (phase2 (.jstr u) pn0 env st).threw = true ∧
      (phase2 (.jstr u) pn0 env st).storage = st) := by
  constructor
  · intro t sp ht hsp hurl
    refine ⟨?_, ?_, ?_, ?_⟩ <;>
      simp [phase2, hok, hbody, hname, hprops, hfind, hval, hparse, ht, hsp,
        hurl, isLoadSkinEv]
  · rintro (ht | ⟨t, ht, hsp⟩)
    · refine ⟨?_, ?_, ?_, ?_⟩ <;>
        simp [phase2, hok, hbody, hname, hprops, hfind, hval, hparse, ht,
          caughtOut, isLoadSkinEv]
    · refine ⟨?_, ?_, ?_, ?_⟩ <;>
        simp [phase2, hok, hbody, hname, hprops, hfind, hval, hparse, ht, hsp,
          caughtOut, isLoadSkinEv]

/-- Witness for the amended C2: a descriptor whose `textures` object has
no `SKIN` entry yields the "no skin found" message, no `loadSkin` call, no
caught exception, and untouched storage. -/
theorem fetch_no_skin_url_witness :
    (phase2 (.jstr "0") (.jstr "0") noSkinUrlEnv emptyStorage).statusMsg =
      noSkinFoundMsg ∧
    (phase2 (.jstr "0") (.jstr "0") noSkinUrlEnv
      emptyStorage).events.countP isLoadSkinEv = 0 ∧
    (phase2 (.jstr "0") (.jstr "0") noSkinUrlEnv emptyStorage).threw = false ∧
    (phase2 (.jstr "0") (.jstr "0") noSkinUrlEnv emptyStorage).storage =
      emptyStorage :=
  (fetch_no_skin_url "0" (.jstr "0") noSkinUrlEnv emptyStorage
    sampleSessionBody (.jstr "Notch") sampleTexturesProp (.jstr "blob")
    (.jobj [("textures", .jobj [])]) [sampleTexturesProp]
    rfl rfl rfl rfl rfl rfl rfl).1 (.jobj []) .undefVal rfl rfl rfl

/-! ## C3: interactive load failures leave storage untouched -/

/-- If `loadSkin` always rejects, `phase2` never writes to storage. -/
theorem phase2_storage_of_loadSkin_fail (uuid0 pn : JValue) (env : Env)
    (st : Storage) (hfail : env.loadSkinOk = fun _ => false) :
    (phase2 uuid0 pn env st).storage = st := by
  cases uuid0 <;> try rfl
  case jstr u =>
    unfold phase2
    simp only [hfail, caughtOut]
    repeat' first
      | rfl
      | split

/-- If `loadSkin` always rejects, `fetchSkinFromMojang` never writes to
storage. -/
theorem fetch_storage_of_loadSkin_fail (v : Bool) (s : String) (env : Env)
    (st : Storage) (hfail : env.loadSkinOk = fun _ => false) :
    (fetchSkinFromMojang v s env st).storage = st := by
  unfold fetchSkinFromMojang runFetch
  repeat' first
    | rfl
    | exact phase2_storage_of_loadSkin_fail _ _ _ _ hfail
    | split
    | dsimp only

/-- If `loadSkin` always rejects, `readSkinFile` never writes to storage. -/
theorem readSkinFile_storage_of_loadSkin_fail (v : Bool)
    (file : Option SkinFile) (env : Env) (rr : Option String) (st : Storage)
    (hfail : env.loadSkinOk = fun _ => false) :
    (readSkinFile v file env rr st).storage = st := by
  unfold readSkinFile
  simp only [hfail]
  repeat' first
    | rfl
    | split

/-- Claim C3: when the external renderer's `loadSkin` rejects, both
interactive load paths (fetched URL and uploaded file) leave local
storage exactly as it was — both writes happen only after `loadSkin`
succeeds, so `currentSkin` and `currentPlayerName` are unchanged on
error. -/
theorem load_reject_preserves_storage (v : Bool) (s : String)
    (file : Option SkinFile) (rr : Option String) (env : Env) (st : Storage)
    (hfail : env.loadSkinOk = fun _ => false) :
    (fetchSkinFromMojang v s env st).storage = st ∧
    (readSkinFile v file env rr st).storage = st :=
  ⟨fetch_storage_of_loadSkin_fail v s env st hfail,
   readSkinFile_storage_of_loadSkin_fail v file env rr st hfail⟩

/-- Witness for C3: with a rejecting renderer, a fetch and a file upload
both leave the (empty) storage unchanged. -/
theorem load_reject_preserves_storage_witness :
    (fetchSkinFromMojang true "Notch" rejectEnv emptyStorage).storage =
      emptyStorage ∧
    (readSkinFile true (some smallPngFile) rejectEnv (some "data:png")
      emptyStorage).storage = emptyStorage :=
  load_reject_preserves_storage true "Notch" (some smallPngFile)
    (some "data:png") rejectEnv emptyStorage rfl

end MCSkin

namespace MCSkin

/-! ## C4: name-lookup 404 -/

/-- The "player not found" message never coincides with the generic
profile-failure message, whatever the echoed input. -/
theorem notFoundMsg_ne_profileFailMsg (i : String) :
    notFoundMsg i ≠ profileFailMsg := by
  intro h
  have h2 := congrArg String.data h
  obtain ⟨l⟩ := i
  simp [notFoundMsg, profileFailMsg, String.data] at h2

/-- Claim C4: a 404 response to the name lookup produces the distinct
"not found" status message — which differs from the generic failure
message used for other non-success statuses — and no session-profile
request is ever issued. -/
theorem name_lookup_404 (s : String) (env : Env) (st : Storage)
    (hne : (jsTrim s).isEmpty = false)
    (hshape : isUuidShaped (jsTrim s) = false)
    (hok : env.nameLookup.ok = false)
    (h404 : env.nameLookup.status = 404) :
    (fetchSkinFromMojang true s env st).statusMsg = notFoundMsg (jsTrim s) ∧
    (fetchSkinFromMojang true s env st).statusErr = true ∧
    (fetchSkinFromMojang true s env st).events.countP isSessionReqEv = 0 ∧
    notFoundMsg (jsTrim s) ≠ profileFailMsg := by
  have hmsg := notFoundMsg_ne_profileFailMsg (jsTrim s)
  simp only [fetchSkinFromMojang, runFetch, Bool.not_true, Bool.false_eq_true,
    if_false, hne, hshape, hok, h404, Bool.not_false, if_true]
  exact ⟨rfl, rfl, rfl, hmsg⟩

/-- Witness for C4 at the username `"Notch"` with a 404 name-lookup
response. -/
theorem name_lookup_404_witness :
    (fetchSkinFromMojang true "Notch" notFound404Env emptyStorage).statusMsg =
      notFoundMsg (jsTrim "Notch") ∧
    (fetchSkinFromMojang true "Notch" notFound404Env emptyStorage).statusErr =
      true ∧
    (fetchSkinFromMojang true "Notch" notFound404Env
      emptyStorage).events.countP isSessionReqEv = 0 ∧
    notFoundMsg (jsTrim "Notch") ≠ profileFailMsg :=
  name_lookup_404 "Notch" notFound404Env emptyStorage (by decide) (by decide)
    rfl rfl

/-! ## C5: startup restore failure clears the saved skin -/

/-- Claim C5: when a saved skin exists in storage — a truthy value, i.e.
a non-empty string, so that line 136's `if (savedSkin)` attempts the
restore at all — and that load attempt fails (the renderer rejects the
stored source), `initializeViewer` removes both storage keys and shows
the "ready" fallback message. -/
theorem init_restore_failure (tp : Bool) (env : Env) (st : Storage) (s : String)
    (hs : getItem st "currentSkin" = some s)
    (hne : s.isEmpty = false)
    (hf : env.loadSkinOk (.jstr s) = false) :
    getItem (initializeViewer tp env st).storage "currentSkin" = none ∧
    getItem (initializeViewer tp env st).storage "currentPlayerName" = none ∧
    (initializeViewer tp env st).statusMsg = readyMsg := by
  refine ⟨?_, ?_, ?_⟩ <;>
    · simp only [initializeViewer, hs, hne, hf, Bool.not_false, if_true,
        Bool.false_eq_true, if_false]
      try rfl

/-- Witness for C5: a storage holding a stale skin and name, with a
rejecting renderer, ends with both keys removed and the ready message. -/
theorem init_restore_failure_witness :
    getItem (initializeViewer true rejectEnv savedStorage).storage
      "currentSkin" = none ∧
    getItem (initializeViewer true rejectEnv savedStorage).storage
      "currentPlayerName" = none ∧
    (initializeViewer true rejectEnv savedStorage).statusMsg = readyMsg :=
  init_restore_failure true rejectEnv savedStorage "https://tex/old" rfl rfl
    rfl

end MCSkin

namespace MCSkin

/-! ## C6: the 5 MiB size ceiling -/

/-- Counterexample to C6 as stated: an oversized file that is not a PNG
gets the PNG-validation error (line 164), not the size error — the PNG
check on line 162 runs before the size check on line 168, so not every
over-5-MiB file is reported with the size message. -/
theorem oversized_nonpng_counterexample :
    (readSkinFile true (some bigTxtFile) sampleEnv (some "d")
      emptyStorage).statusMsg = some (pngErrMsg, true) ∧
    pngErrMsg ≠ sizeErrMsg := by
  exact ⟨rfl, by decide⟩

/-- Claim C6 (amended): for a file that passes the PNG pre-validation,
exceeding 5 MiB yields the size-error message with no file read started
and storage untouched; any file of size at most 5 MiB passes the size
check (never produces the size-error message). -/
theorem oversized_png_size_check (f : SkinFile) (env : Env) (rr : Option String)
    (st : Storage) (hpng : isPNGFile f = true) :
    (5 * 1024 * 1024 < f.size →
      (readSkinFile true (some f) env rr st).statusMsg =
        some (sizeErrMsg, true) ∧
      (readSkinFile true (some f) env rr st).events = [] ∧
      (readSkinFile true (some f) env rr st).storage = st) ∧
    (f.size ≤ 5 * 1024 * 1024 →
      (readSkinFile true (some f) env rr st).statusMsg ≠
        some (sizeErrMsg, true)) := by
  constructor
  · intro h
    unfold readSkinFile
    simp only [hpng, Bool.not_true, Bool.false_eq_true, if_false, Bool.not_false,
      if_true]
    rw [if_pos (by omega : f.size > 5 * 1024 * 1024)]
    exact ⟨rfl, rfl, rfl⟩
  · intro h
    unfold readSkinFile
    simp only [hpng, Bool.not_true, Bool.false_eq_true, if_false, Bool.not_false,
      if_true]
    rw [if_neg (by omega : ¬f.size > 5 * 1024 * 1024)]
    repeat' split
    all_goals simp [sizeErrMsg, fileReadErrMsg, fileCatchMsg, skinLoadedMsg]

/-- Witness for the amended C6: a PNG one byte over the ceiling is
rejected with the size message, nothing read, storage untouched; a small
PNG never sees the size message. -/
theorem oversized_png_size_check_witness :
    (readSkinFile true (some bigPngFile) sampleEnv (some "data:png")
      emptyStorage).statusMsg = some (sizeErrMsg, true) ∧
    (readSkinFile true (some bigPngFile) sampleEnv (some "data:png")
      emptyStorage).events = [] ∧
    (readSkinFile true (some bigPngFile) sampleEnv (some "data:png")
      emptyStorage).storage = emptyStorage ∧
    (readSkinFile true (some smallPngFile) sampleEnv (some "data:png")
      emptyStorage).statusMsg ≠ some (sizeErrMsg, true) := by
  have h1 := (oversized_png_size_check bigPngFile sampleEnv (some "data:png")
    emptyStorage (by decide)).1 (by decide)
  have h2 := (oversized_png_size_check smallPngFile sampleEnv (some "data:png")
    emptyStorage (by decide)).2 (by decide)
  exact ⟨h1.1, h1.2.1, h1.2.2, h2⟩

/-! ## C7: the animation preference round-trips through storage -/

/-- Claim C7: the animation preference read at startup defaults to
enabled when no stored value exists; after the toggle handler persists
`false`, a later `initializeViewer` (storage intact) reads the preference
as disabled, leaves the animation off, and shows the checkbox
unchecked. -/
theorem animation_pref_roundtrip (st st2 : Storage) (env : Env)
    (hnone : getItem st2 "animationEnabled" = none) :
    animationEnabledPref st2 = true ∧
    (∀ r, animationToggleChange true false st = some r →
      animationEnabledPref r.2 = false ∧
      (initializeViewer true env r.2).animationSet = false ∧
      (initializeViewer true env r.2).toggleChecked = some false) := by
  constructor
  · simp [animationEnabledPref, hnone]
  · intro r h
    simp only [animationToggleChange, Bool.not_true, Bool.false_eq_true,
      if_false, Option.some.injEq] at h
    subst h
    have hpref : animationEnabledPref
        (setItem st "animationEnabled" "false") = false := rfl
    refine ⟨hpref, ?_, ?_⟩ <;>
      · unfold initializeViewer
        repeat' first
          | exact hpref
          | exact absurd trivial (by assumption)
          | simp only [hpref]
          | split

/-- Witness for C7: on the empty storage the preference defaults to
`true`; after toggling off, the next startup reads `false` and leaves
checkbox and animation off. -/
theorem animation_pref_roundtrip_witness :
    animationEnabledPref emptyStorage = true ∧
    animationEnabledPref (setItem emptyStorage "animationEnabled" "false") =
      false ∧
    (initializeViewer true sampleEnv
      (setItem emptyStorage "animationEnabled" "false")).animationSet = false ∧
    (initializeViewer true sampleEnv
      (setItem emptyStorage "animationEnabled" "false")).toggleChecked =
      some false := by
  have h := animation_pref_roundtrip emptyStorage emptyStorage sampleEnv rfl
  have h2 := h.2 (false, setItem emptyStorage "animationEnabled" "false") rfl
  exact ⟨h.1, h2.1, h2.2.1, h2.2.2⟩

end MCSkin

namespace MCSkin

/-! ## C8: the Resolver is deterministic in its upstream responses -/

/-- The resolved skin reference computed by `phase2` does not depend on
whether the renderer accepts the source. -/
theorem phase2_resolved_loadSkin_indep (uuid0 pn : JValue) (n : HttpResp)
    (sl : String → HttpResp) (pt : String → Option JValue)
    (l1 l2 : JValue → Bool) (st : Storage) :
    (phase2 uuid0 pn ⟨n, sl, pt, l1⟩ st).resolved =
    (phase2 uuid0 pn ⟨n, sl, pt, l2⟩ st).resolved := by
  cases uuid0 <;> try rfl
  case jstr u =>
    unfold phase2
    dsimp only
    repeat' split
    all_goals rfl

/-- Claim C8: the Resolver is deterministic in its input and upstream
responses — two runs on the same input whose name-lookup, session-profile
and texture-decoding results coincide produce the same resolved skin
reference (skin URL and player name), even if the renderer behaves
differently. -/
theorem resolver_deterministic (v : Bool) (s : String) (st : Storage)
    (env1 env2 : Env)
    (hn : env1.nameLookup = env2.nameLookup)
    (hs : env1.sessionLookup = env2.sessionLookup)
    (hp : env1.parseTextures = env2.parseTextures) :
    (fetchSkinFromMojang v s env1 st).resolved =
    (fetchSkinFromMojang v s env2 st).resolved := by
  obtain ⟨n1, sl1, pt1, l1⟩ := env1
  obtain ⟨n2, sl2, pt2, l2⟩ := env2
  dsimp only at hn hs hp
  subst hn; subst hs; subst hp
  cases v
  · rfl
  · unfold fetchSkinFromMojang runFetch
    dsimp only
    repeat' first
      | exact phase2_resolved_loadSkin_indep ..
      | split
      | dsimp only

/-- Witness for C8: the happy-path environment and its rejecting variant
share all three response functions, so the resolved reference agrees. -/
theorem resolver_deterministic_witness :
    (fetchSkinFromMojang true "Notch" sampleEnv emptyStorage).resolved =
    (fetchSkinFromMojang true "Notch" rejectEnv emptyStorage).resolved :=
  resolver_deterministic true "Notch" emptyStorage sampleEnv rejectEnv
    rfl rfl rfl

/-! ## C9: the viewer-initialisation guard -/

/-- Claim C9: before the viewer is initialised, both entry points return
immediately after setting the "still starting up" status: no request, no
file read, no `loadSkin` call, and storage untouched. -/
theorem uninitialized_viewer_guard (s : String) (file : Option SkinFile)
    (rr : Option String) (env : Env) (st : Storage) :
    (fetchSkinFromMojang false s env st).statusMsg = startingUpMsg ∧
    (fetchSkinFromMojang false s env st).statusErr = true ∧
    (fetchSkinFromMojang false s env st).events = [] ∧
    (fetchSkinFromMojang false s env st).storage = st ∧
    (readSkinFile false file env rr st).statusMsg =
      some (startingUpMsg, true) ∧
    (readSkinFile false file env rr st).events = [] ∧
    (readSkinFile false file env rr st).storage = st :=
  ⟨rfl, rfl, rfl, rfl, rfl, rfl, rfl⟩

/-! ## C10: PNG validation is a disjunction -/

/-- Claim C10: the PNG pre-validation accepts a file when its MIME type
is `image/png` or its name ends with `.png` — each alone suffices: a
`.png`-named file passes whatever its type, and an `image/png`-typed file
passes whatever its name (it never draws the PNG-error message). -/
theorem png_validation_disjunction (f : SkinFile) (env : Env)
    (rr : Option String) (st : Storage) :
    (strEndsWith f.name ".png" = true → isPNGFile f = true ∧
      (readSkinFile true (some f) env rr st).statusMsg ≠
        some (pngErrMsg, true)) ∧
    (f.type = "image/png" → isPNGFile f = true ∧
      (readSkinFile true (some f) env rr st).statusMsg ≠
        some (pngErrMsg, true)) := by
  have key : ∀ hp : isPNGFile f = true,
      (readSkinFile true (some f) env rr st).statusMsg ≠
        some (pngErrMsg, true) := by
    intro hp
    unfold readSkinFile
    simp only [hp, Bool.not_true, Bool.false_eq_true, if_false, Bool.not_false,
      if_true]
    repeat' split
    all_goals simp [sizeErrMsg, pngErrMsg, fileReadErrMsg, fileCatchMsg,
      skinLoadedMsg]
  constructor
  · intro h
    have hp : isPNGFile f = true := by simp [isPNGFile, h]
    exact ⟨hp, key hp⟩
  · intro h
    have hp : isPNGFile f = true := by simp [isPNGFile, h]
    exact ⟨hp, key hp⟩

/-- Witness for C10: a `.png`-named non-PNG-typed file and a PNG-typed
extensionless file both pass the PNG validation. -/
theorem png_validation_disjunction_witness :
    (isPNGFile pngNameFile = true ∧
      (readSkinFile true (some pngNameFile) sampleEnv (some "d")
        emptyStorage).statusMsg ≠ some (pngErrMsg, true)) ∧
    (isPNGFile noExtPngFile = true ∧
      (readSkinFile true (some noExtPngFile) sampleEnv (some "d")
        emptyStorage).statusMsg ≠ some (pngErrMsg, true)) :=
  ⟨(png_validation_disjunction pngNameFile sampleEnv (some "d")
      emptyStorage).1 (by decide),
   (png_validation_disjunction noExtPngFile sampleEnv (some "d")
      emptyStorage).2 rfl⟩

end MCSkin
